import Mathlib

/-!
# Verification of the hybrid crisis-detection / response-generation pipeline

Shallow embedding of the core pipeline of the `omani-therapist-voice`
backend:

* `TherapyService._rule_based_analysis`, `_llm_based_analysis` and
  `_fuse_analysis` (backend/app/services/therapy_service.py), and
* `AIService.generate_response`, `_apply_cultural_adaptations` and
  `_generate_fallback_response` (backend/app/services/ai_service.py).

Python dictionaries become Lean structures (keys that may be absent become
`Option` fields), Python float constants become rational literals, and the
external model calls become explicit `Except`/`Option` parameters describing
the outcome of the call (an `Except.error` models an exception raised by the
call, which the surrounding `try/except` catches).
-/

namespace OmaniTherapist

/-! ## String primitives

Models of the Python string operations used by the services.  The crisis
patterns are literal strings with no regex metacharacters, so
`re.search(pattern, text, re.IGNORECASE)` is a case-insensitive substring
test.  All helpers work on the underlying character lists so that concrete
instances reduce by `decide`. -/

/-- `needle.isPrefixOf`-style containment: does `needle` occur as a
contiguous run inside `haystack`?  Models Python's `needle in haystack`. -/
def charsContain (haystack needle : List Char) : Bool :=
  match haystack with
  | [] => needle.isEmpty
  | _ :: rest => needle.isPrefixOf haystack || charsContain rest needle

/-- Python `needle in haystack` on strings. -/
def pyContains (haystack needle : String) : Bool :=
  charsContain haystack.data needle.data

/-- Python `str.lower()` (ASCII case mapping; identity on Arabic). -/
def pyLower (s : String) : String :=
  ⟨s.data.map Char.toLower⟩

/-- Python `str.upper()` (ASCII case mapping; identity on Arabic). -/
def pyUpper (s : String) : String :=
  ⟨s.data.map Char.toUpper⟩

/-- Python `str.startswith(pre)`. -/
def pyStartsWith (s pre : String) : Bool :=
  pre.data.isPrefixOf s.data

/-- Python `str.strip()`: drop leading and trailing whitespace. -/
def pyStrip (s : String) : String :=
  ⟨((s.data.dropWhile Char.isWhitespace).reverse.dropWhile Char.isWhitespace).reverse⟩

/-! ## TherapyService: rule-based crisis analysis

From `TherapyService.__init__` and `_rule_based_analysis`
(therapy_service.py, lines 24-35 and 70-98). -/

/-- The `self.crisis_patterns` table, in Python dict insertion order. -/
def crisis_patterns : List (String × List String) :=
  [("suicide_ideation",
     ["أريد أن أموت", "قتل نفسي", "انتحار", "لا أستطيع العيش",
      "أفضل الموت", "لا فائدة من الحياة", "أريد إنهاء حياتي"]),
   ("self_harm",
     ["أجرح نفسي", "أؤذي نفسي", "أقطع نفسي", "أحرق نفسي"]),
   ("hopelessness",
     ["لا أمل", "لا فائدة", "مستحيل", "لا أرى مخرج", "ضائع"])]

/-- `re.search(pattern, text, re.IGNORECASE)` for the literal patterns of
the table: case-insensitive substring occurrence. -/
def patternMatch (pattern text : String) : Bool :=
  pyContains (pyLower text) (pyLower pattern)

/-- The `crisis_assessment` sub-dictionary.  The rule-based channel fills
`indicators`; the LLM channel's dictionary carries at least `risk_level` and
`requires_intervention` (defaults cover keys a given producer leaves out). -/
structure CrisisAssessment where
  risk_level : String
  indicators : List String := []
  requires_intervention : Bool := false
  escalation_required : Bool := false
deriving Repr, DecidableEq

/-- Result dictionary of `_rule_based_analysis`. -/
structure RuleAssessment where
  source : String
  emotional_state : String
  intent : String
  crisis_assessment : CrisisAssessment
  confidence : ℚ
deriving Repr, DecidableEq

/-- `TherapyService._rule_based_analysis` (therapy_service.py 70-98).
The inner loops append the category name once per matching pattern. -/
def rule_based_analysis (text : String) : RuleAssessment :=
  let risk_indicators :=
    (crisis_patterns.map (fun cp =>
      cp.2.filterMap (fun pattern =>
        if patternMatch pattern text then some cp.1 else none))).flatten
  let risk_level :=
    if "suicide_ideation" ∈ risk_indicators ∨ "self_harm" ∈ risk_indicators then
      "critical"
    else if "hopelessness" ∈ risk_indicators then
      "high"
    else if risk_indicators ≠ [] then
      "medium"
    else
      "low"
  { source := "rule_based",
    emotional_state := "neutral",
    intent := "unknown",
    crisis_assessment :=
      { risk_level := risk_level,
        indicators := risk_indicators,
        requires_intervention := risk_level ∈ (["high", "critical"] : List String),
        escalation_required := risk_level = "critical" },
    confidence := if risk_indicators ≠ [] then 0.6 else 0.3 }

/-- A category of the table "hits" `text` if any of its patterns match. -/
def categoryHit (cat text : String) : Bool :=
  crisis_patterns.any (fun cp => cp.1 == cat && cp.2.any (fun p => patternMatch p text))

/-- Some category of the table hits `text`. -/
def anyCategoryHit (text : String) : Bool :=
  crisis_patterns.any (fun cp => cp.2.any (fun p => patternMatch p text))

/-! ## TherapyService: LLM analysis and fusion

From `_llm_based_analysis` (therapy_service.py 100-142) and `_fuse_analysis`
(144-152).  The external call plus `json.loads` plus the `**llm_result`
splice either raises (network error, timeout, non-JSON text, JSON that is
not an object — all caught by the `except` clause) or produces a JSON
object whose keys are spliced into the result unvalidated.  `LLMRaw` is
that parsed object; every field is optional because nothing checks the
schema. -/

/-- A parsed JSON object returned by the analyzer model; absent keys are
`none`.  Only the keys the downstream code reads are modelled. -/
structure LLMRaw where
  source : Option String := none
  emotional_state : Option String := none
  intent : Option String := none
  crisis_assessment : Option CrisisAssessment := none
  recommended_technique : Option String := none
  confidence : Option ℚ := none
deriving Repr, DecidableEq

/-- Result dictionary of `_llm_based_analysis`.  `crisis_assessment` stays
optional: the code never validates that the model supplied the key. -/
structure LLMAssessment where
  source : String
  emotional_state : Option String
  intent : Option String
  crisis_assessment : Option CrisisAssessment
  recommended_technique : Option String
  confidence : ℚ
deriving Repr, DecidableEq

/-- The fixed default returned by the `except` branch of
`_llm_based_analysis` (therapy_service.py 132-142). -/
def llm_default_assessment : LLMAssessment :=
  { source := "llm",
    emotional_state := some "neutral",
    intent := some "general_conversation",
    crisis_assessment := some
      { risk_level := "low",
        requires_intervention := false,
        escalation_required := false },
    recommended_technique := none,
    confidence := 0 }

/-- `TherapyService._llm_based_analysis` (therapy_service.py 100-142).
`callResult` is the outcome of the external call: `Except.error` for any
exception inside the `try` block, `Except.ok raw` for a successfully parsed
JSON object `raw`.  In `{"source": "llm", **llm_result, "confidence": 0.8}`
later keys win, so a `source` key of `raw` overrides `"llm"` and
`confidence` is always `0.8`. -/
def llm_based_analysis (callResult : Except Unit LLMRaw) : LLMAssessment :=
  match callResult with
  | .error _ => llm_default_assessment
  | .ok raw =>
    { source := raw.source.getD "llm",
      emotional_state := raw.emotional_state,
      intent := raw.intent,
      crisis_assessment := raw.crisis_assessment,
      recommended_technique := raw.recommended_technique,
      confidence := 0.8 }

/-- Result dictionary of `_fuse_analysis`: the LLM fields with
`crisis_assessment` and `is_crisis` set per the fusion rule. -/
structure FusedAnalysis where
  source : String
  emotional_state : Option String
  intent : Option String
  crisis_assessment : Option CrisisAssessment
  recommended_technique : Option String
  confidence : ℚ
  is_crisis : Bool
deriving Repr, DecidableEq

/-- `TherapyService._fuse_analysis` (therapy_service.py 144-152).  When the
rule-based risk level is not high/critical the code reads
`llm_based["crisis_assessment"]["risk_level"]`; a missing key there is a
`KeyError`, modelled as `none`. -/
def fuse_analysis (rule_based : RuleAssessment) (llm_based : LLMAssessment) :
    Option FusedAnalysis :=
  let crisis := rule_based.crisis_assessment
  if crisis.risk_level ∈ (["high", "critical"] : List String) then
    some
      { source := llm_based.source,
        emotional_state := llm_based.emotional_state,
        intent := llm_based.intent,
        crisis_assessment := some crisis,
        recommended_technique := llm_based.recommended_technique,
        confidence := llm_based.confidence,
        is_crisis := true }
  else
    match llm_based.crisis_assessment with
    | none => none
    | some llmCrisis =>
      some
        { source := llm_based.source,
          emotional_state := llm_based.emotional_state,
          intent := llm_based.intent,
          crisis_assessment := some llmCrisis,
          recommended_technique := llm_based.recommended_technique,
          confidence := llm_based.confidence,
          is_crisis := llmCrisis.risk_level ∈ (["high", "critical"] : List String) }

/-! ## AIService: response generation, safety review, fallback

From `AIService.generate_response` (ai_service.py 48-117),
`_apply_cultural_adaptations` (144-165) and `_generate_fallback_response`
(206-226).  The two external model calls are parameters:

* `genResult : Except Unit (Option String)` — the primary-generation call.
  `Except.error` models an exception raised by the call; `.ok none` models a
  response whose `message.content` is `None` (the subsequent `.strip()`
  raises, which the `except` also catches); `.ok (some s)` is content `s`.
* `reviewResult : Except Unit (Option String)` — the safety-review call.
  `.error` models an exception; `.ok none` models a falsy response object
  (the code substitutes `"APPROVED"`); `.ok (some t)` is raw reviewer text
  `t`. -/

/-- The `safety` / `safety_assessment` dictionary. -/
structure SafetyAssessment where
  risk_level : String
  intervention_required : Bool
deriving Repr, DecidableEq

/-- The slice of the fused-analysis dictionary that `generate_response`'s
return value depends on: `analysis.get("emotional_state", ...)`.  `none`
models an absent key.  (The other keys only feed the prompt sent to the
external model.) -/
structure Analysis where
  emotional_state : Option String := none
deriving Repr, DecidableEq

/-- The intermediate response dictionary threaded through
`_apply_cultural_adaptations`; keys the code may not have set yet are
`Option` fields. -/
structure ResponseDict where
  text : String
  confidence : ℚ
  adaptations : Option (List String) := none
  techniques : Option (List String) := none
  safety : Option SafetyAssessment := none
deriving Repr, DecidableEq

/-- `AIService._apply_cultural_adaptations` (ai_service.py 144-165).  The
`analysis` argument is accepted and ignored, as in the source. -/
def apply_cultural_adaptations (response : ResponseDict) (analysis : Analysis) :
    ResponseDict :=
  let text := response.text
  let adaptations : List String := []
  let adaptations :=
    if pyContains text "الله" || pyContains text "إن شاء الله" then
      adaptations ++ ["religious_sensitivity"]
    else adaptations
  let adaptations :=
    if (["عائلة", "والدين", "إخوان", "أخوات"] : List String).any
        (fun term => pyContains text term) then
      adaptations ++ ["family_context"]
    else adaptations
  let adaptations :=
    if (["مجتمع", "عادات", "تقاليد"] : List String).any
        (fun term => pyContains text term) then
      adaptations ++ ["social_norms"]
    else adaptations
  let adaptations :=
    if (["علاج", "نفسي", "استشارة", "دعم"] : List String).any
        (fun term => pyContains text term) then
      adaptations ++ ["therapeutic_terminology"]
    else adaptations
  { response with
      adaptations := some adaptations,
      techniques := some ["active_listening", "empathetic_response"],
      safety := some { risk_level := "low", intervention_required := false } }

/-- The review-parsing step of `generate_response` (ai_service.py 91-98):
`safety_check = gemini_response.text.strip() if gemini_response else
"APPROVED"`, then keep the primary text iff
`safety_check.upper().startswith("APPROVED")`, else the stripped reviewer
text becomes the final text. -/
def review_final_text (response_text : String) (review : Option String) : String :=
  let safety_check :=
    match review with
    | some raw => pyStrip raw
    | none => "APPROVED"
  if pyStartsWith (pyUpper safety_check) "APPROVED" then response_text
  else safety_check

/-- The `fallback_responses` catalog of `_generate_fallback_response`
(ai_service.py 210-215). -/
def fallback_responses : List (String × String) :=
  [("crisis", "أفهم أنك تمر بوقت صعب. هل يمكنك مشاركة المزيد حول ما تشعر به؟ أنا هنا لمساعدتك."),
   ("anxiety", "القلق أمر طبيعي أحياناً. دعنا نتحدث عن طرق للتعامل مع هذه المشاعر."),
   ("sadness", "أرى أنك تشعر بالحزن. هذا شعور طبيعي. هل تريد التحدث عما يزعجك؟"),
   ("general", "شكراً لك على مشاركة مشاعرك معي. كيف يمكنني مساعدتك اليوم؟")]

/-- Python `dict.get(key)` on a small literal dict kept as an association
list in insertion order. -/
def dictGet (d : List (String × String)) (key : String) : Option String :=
  (d.find? (fun kv => kv.1 == key)).map (fun kv => kv.2)

/-- The final dictionary returned by `generate_response` on either path.
`safety_assessment` is `Option`-typed because the success path reads
`final_response.get("safety", {})`, whose `{}` default is modelled by
`none`. -/
structure GeneratedResponse where
  text : String
  model_used : String
  confidence : ℚ
  cultural_adaptations : List String
  therapeutic_techniques : List String
  safety_assessment : Option SafetyAssessment
deriving Repr, DecidableEq

/-- `AIService._generate_fallback_response` (ai_service.py 206-226).  The
transcript argument is accepted and ignored, as in the source. -/
def generate_fallback_response (transcript : String) (analysis : Analysis) :
    GeneratedResponse :=
  let emotional_state := analysis.emotional_state.getD "general"
  let response_text :=
    (dictGet fallback_responses emotional_state).getD
      ((dictGet fallback_responses "general").getD "")
  { text := response_text,
    model_used := "fallback",
    confidence := 0.5,
    cultural_adaptations := ["emergency_fallback"],
    therapeutic_techniques := ["active_listening"],
    safety_assessment := some { risk_level := "low", intervention_required := false } }

/-- `AIService.generate_response` (ai_service.py 48-117), after successful
initialization.  `primary_model` and `duel_model` are the configured model
names (`settings.OPENAI_API_MODEL or "gpt-4o-mini"`, etc.).  Any exception
inside the `try` block — the generation call itself, `.strip()` on a `None`
content, or the review call — lands in the `except` branch, which returns
the fallback response. -/
def generate_response (primary_model duel_model : String)
    (transcript : String) (analysis : Analysis) (session_id : String)
    (genResult : Except Unit (Option String))
    (reviewResult : Except Unit (Option String)) : GeneratedResponse :=
  match genResult with
  | .error _ => generate_fallback_response transcript analysis
  | .ok none => generate_fallback_response transcript analysis
  | .ok (some content) =>
    let response_text := pyStrip content
    match reviewResult with
    | .error _ => generate_fallback_response transcript analysis
    | .ok review =>
      let final_response_text := review_final_text response_text review
      let final_response :=
        apply_cultural_adaptations
          { text := final_response_text, confidence := 0.85 } analysis
      { text := final_response.text,
        model_used := primary_model ++ "," ++ duel_model,
        confidence := final_response.confidence,
        cultural_adaptations := final_response.adaptations.getD [],
        therapeutic_techniques := final_response.techniques.getD [],
        safety_assessment := final_response.safety }

/-! ## Helper lemmas -/

def risk_indicators_of (text : String) : List String :=
  (crisis_patterns.map (fun cp =>
    cp.2.filterMap (fun pattern =>
      if patternMatch pattern text then some cp.1 else none))).flatten

/-- The adaptation-tag cascade of `_apply_cultural_adaptations`, as a
function of the text alone (definitionally equal to the `adaptations`
field the tagger writes). -/
def culturalTags (text : String) : List String :=
  let adaptations : List String := []
  let adaptations :=
    if pyContains text "الله" || pyContains text "إن شاء الله" then
      adaptations ++ ["religious_sensitivity"]
    else adaptations
  let adaptations :=
    if (["عائلة", "والدين", "إخوان", "أخوات"] : List String).any
        (fun term => pyContains text term) then
      adaptations ++ ["family_context"]
    else adaptations
  let adaptations :=
    if (["مجتمع", "عادات", "تقاليد"] : List String).any
        (fun term => pyContains text term) then
      adaptations ++ ["social_norms"]
    else adaptations
  let adaptations :=
    if (["علاج", "نفسي", "استشارة", "دعم"] : List String).any
        (fun term => pyContains text term) then
      adaptations ++ ["therapeutic_terminology"]
    else adaptations
  adaptations

lemma mem_risk_indicators_iff (text cat : String) :
    cat ∈ risk_indicators_of text ↔ categoryHit cat text = true := by
  simp only [risk_indicators_of, categoryHit, List.mem_flatten, List.mem_map,
    List.any_eq_true, Bool.and_eq_true, beq_iff_eq]
  constructor
  · rintro ⟨l, ⟨cp, hcp, rfl⟩, hmem⟩
    rw [List.mem_filterMap] at hmem
    obtain ⟨p, hp, hif⟩ := hmem
    by_cases hm : patternMatch p text = true
    · rw [if_pos hm] at hif
      exact ⟨cp, hcp, Option.some.inj hif, p, hp, hm⟩
    · rw [if_neg hm] at hif
      cases hif
  · rintro ⟨cp, hcp, hcat, p, hp, hm⟩
    refine ⟨_, ⟨cp, hcp, rfl⟩, ?_⟩
    rw [List.mem_filterMap]
    exact ⟨p, hp, by simp [hm, hcat]⟩

lemma risk_indicators_nil_iff (text : String) :
    risk_indicators_of text = [] ↔ anyCategoryHit text = false := by
  rw [risk_indicators_of, anyCategoryHit, List.flatten_eq_nil_iff, List.any_eq_false]
  constructor
  · intro h cp hcp
    rw [Bool.not_eq_true, List.any_eq_false]
    intro p hp
    have hl := h _ (List.mem_map_of_mem _ hcp)
    rw [List.filterMap_eq_nil_iff] at hl
    have hnone := hl p hp
    by_cases hm : patternMatch p text = true
    · rw [if_pos hm] at hnone
      cases hnone
    · exact hm
  · intro h l hl
    obtain ⟨cp, hcp, rfl⟩ := List.mem_map.mp hl
    rw [List.filterMap_eq_nil_iff]
    intro p hp
    have hcpf := h cp hcp
    rw [Bool.not_eq_true, List.any_eq_false] at hcpf
    have hm := hcpf p hp
    rw [Bool.not_eq_true] at hm
    rw [if_neg (by simp [hm])]

lemma risk_indicators_ne_nil_iff (text : String) :
    risk_indicators_of text ≠ [] ↔ anyCategoryHit text = true := by
  rw [Ne, risk_indicators_nil_iff]
  cases anyCategoryHit text <;> simp

lemma count_filterMap_ite (c cat text : String) (pats : List String) :
    (pats.filterMap (fun p => if patternMatch p text then some c else none)).count cat =
      if c = cat then (pats.filter (fun p => patternMatch p text)).length else 0 := by
  induction pats with
  | nil => simp
  | cons p ps ih =>
    by_cases hm : patternMatch p text = true <;> by_cases hc : c = cat
    · subst hc
      simp [hm, List.count_cons, List.filter_cons, ih]
    · simp [hm, hc, List.count_cons, List.filter_cons, ih]
    · subst hc
      simp [hm, List.filter_cons, ih]
    · simp [hm, hc, List.filter_cons, ih]

lemma rule_indicators_eq (text : String) :
    (rule_based_analysis text).crisis_assessment.indicators = risk_indicators_of text := rfl

lemma rule_risk_level_eq (text : String) :
    (rule_based_analysis text).crisis_assessment.risk_level =
      (if "suicide_ideation" ∈ risk_indicators_of text ∨
          "self_harm" ∈ risk_indicators_of text then "critical"
       else if "hopelessness" ∈ risk_indicators_of text then "high"
       else if risk_indicators_of text ≠ [] then "medium"
       else "low") := rfl

lemma rule_escalation_eq (text : String) :
    (rule_based_analysis text).crisis_assessment.escalation_required =
      ((rule_based_analysis text).crisis_assessment.risk_level = "critical" : Bool) := rfl

lemma rule_confidence_eq (text : String) :
    (rule_based_analysis text).confidence =
      (if risk_indicators_of text ≠ [] then (0.6 : ℚ) else 0.3) := rfl

lemma apply_cultural_adaptations_eq (r : ResponseDict) (a : Analysis) :
    apply_cultural_adaptations r a =
      { r with
          adaptations := some (culturalTags r.text),
          techniques := some ["active_listening", "empathetic_response"],
          safety := some { risk_level := "low", intervention_required := false } } := rfl

lemma count_culturalTags_religious (text : String) :
    (culturalTags text).count "religious_sensitivity" =
      (if (pyContains text "الله" || pyContains text "إن شاء الله") = true then 1 else 0) := by
  simp only [culturalTags]
  by_cases h1 : (pyContains text "الله" || pyContains text "إن شاء الله") = true <;>
    by_cases h2 : ((["عائلة", "والدين", "إخوان", "أخوات"] : List String).any
        (fun term => pyContains text term)) = true <;>
      by_cases h3 : ((["مجتمع", "عادات", "تقاليد"] : List String).any
          (fun term => pyContains text term)) = true <;>
        by_cases h4 : ((["علاج", "نفسي", "استشارة", "دعم"] : List String).any
            (fun term => pyContains text term)) = true <;>
          simp [h1, h2, h3, h4]
lemma count_culturalTags_family (text : String) :
    (culturalTags text).count "family_context" =
      (if ((["عائلة", "والدين", "إخوان", "أخوات"] : List String).any
          (fun term => pyContains text term)) = true then 1 else 0) := by
  simp only [culturalTags]
  by_cases h1 : (pyContains text "الله" || pyContains text "إن شاء الله") = true <;>
    by_cases h2 : ((["عائلة", "والدين", "إخوان", "أخوات"] : List String).any
        (fun term => pyContains text term)) = true <;>
      by_cases h3 : ((["مجتمع", "عادات", "تقاليد"] : List String).any
          (fun term => pyContains text term)) = true <;>
        by_cases h4 : ((["علاج", "نفسي", "استشارة", "دعم"] : List String).any
            (fun term => pyContains text term)) = true <;>
          simp [h1, h2, h3, h4]

lemma count_culturalTags_social (text : String) :
    (culturalTags text).count "social_norms" =
      (if ((["مجتمع", "عادات", "تقاليد"] : List String).any
          (fun term => pyContains text term)) = true then 1 else 0) := by
  simp only [culturalTags]
  by_cases h1 : (pyContains text "الله" || pyContains text "إن شاء الله") = true <;>
    by_cases h2 : ((["عائلة", "والدين", "إخوان", "أخوات"] : List String).any
        (fun term => pyContains text term)) = true <;>
      by_cases h3 : ((["مجتمع", "عادات", "تقاليد"] : List String).any
          (fun term => pyContains text term)) = true <;>
        by_cases h4 : ((["علاج", "نفسي", "استشارة", "دعم"] : List String).any
            (fun term => pyContains text term)) = true <;>
          simp [h1, h2, h3, h4]

lemma count_culturalTags_therapeutic (text : String) :
    (culturalTags text).count "therapeutic_terminology" =
      (if ((["علاج", "نفسي", "استشارة", "دعم"] : List String).any
          (fun term => pyContains text term)) = true then 1 else 0) := by
  simp only [culturalTags]
  by_cases h1 : (pyContains text "الله" || pyContains text "إن شاء الله") = true <;>
    by_cases h2 : ((["عائلة", "والدين", "إخوان", "أخوات"] : List String).any
        (fun term => pyContains text term)) = true <;>
      by_cases h3 : ((["مجتمع", "عادات", "تقاليد"] : List String).any
          (fun term => pyContains text term)) = true <;>
        by_cases h4 : ((["علاج", "نفسي", "استشارة", "دعم"] : List String).any
            (fun term => pyContains text term)) = true <;>
          simp [h1, h2, h3, h4]

lemma culturalTags_nodup (text : String) : (culturalTags text).Nodup := by
  simp only [culturalTags]
  by_cases h1 : (pyContains text "الله" || pyContains text "إن شاء الله") = true <;>
    by_cases h2 : ((["عائلة", "والدين", "إخوان", "أخوات"] : List String).any
        (fun term => pyContains text term)) = true <;>
      by_cases h3 : ((["مجتمع", "عادات", "تقاليد"] : List String).any
          (fun term => pyContains text term)) = true <;>
        by_cases h4 : ((["علاج", "نفسي", "استشارة", "دعم"] : List String).any
            (fun term => pyContains text term)) = true <;>
          simp [h1, h2, h3, h4]

/-! ## Claims about the rule-based channel and the fusion step -/

/-- **C1** (confirmed).  Safety-first fusion: if the rule-based
`crisis_assessment.risk_level` is `"high"` or `"critical"`, the fused
analysis's `crisis_assessment` equals the rule-based `crisis_assessment`
exactly and `is_crisis` is `true`; otherwise the fused analysis carries the
LLM assessment's fields and `is_crisis` is `true` precisely when the LLM
`crisis_assessment.risk_level` is `"high"` or `"critical"`. -/
theorem C1_fusion_safety_first (rule : RuleAssessment) (llm : LLMAssessment) :
    ((rule.crisis_assessment.risk_level = "high" ∨
        rule.crisis_assessment.risk_level = "critical") →
      ∃ f, fuse_analysis rule llm = some f ∧
        f.source = llm.source ∧ f.emotional_state = llm.emotional_state ∧
        f.intent = llm.intent ∧ f.recommended_technique = llm.recommended_technique ∧
        f.confidence = llm.confidence ∧
        f.crisis_assessment = some rule.crisis_assessment ∧ f.is_crisis = true) ∧
    (¬(rule.crisis_assessment.risk_level = "high" ∨
        rule.crisis_assessment.risk_level = "critical") →
      ∀ llmCrisis, llm.crisis_assessment = some llmCrisis →
        ∃ f, fuse_analysis rule llm = some f ∧
          f.source = llm.source ∧ f.emotional_state = llm.emotional_state ∧
          f.intent = llm.intent ∧ f.recommended_technique = llm.recommended_technique ∧
          f.confidence = llm.confidence ∧ f.crisis_assessment = some llmCrisis ∧
          (f.is_crisis = true ↔
            (llmCrisis.risk_level = "high" ∨ llmCrisis.risk_level = "critical"))) := by
  constructor
  · intro h
    have hm : rule.crisis_assessment.risk_level ∈ (["high", "critical"] : List String) := by
      rcases h with h | h <;> simp [h]
    refine ⟨{ source := llm.source, emotional_state := llm.emotional_state,
              intent := llm.intent, crisis_assessment := some rule.crisis_assessment,
              recommended_technique := llm.recommended_technique,
              confidence := llm.confidence, is_crisis := true },
            ?_, rfl, rfl, rfl, rfl, rfl, rfl, rfl⟩
    simp only [fuse_analysis]
    rw [if_pos hm]
  · intro h llmCrisis hc
    have hm : rule.crisis_assessment.risk_level ∉ (["high", "critical"] : List String) := by
      simpa using h
    refine ⟨{ source := llm.source, emotional_state := llm.emotional_state,
              intent := llm.intent, crisis_assessment := some llmCrisis,
              recommended_technique := llm.recommended_technique,
              confidence := llm.confidence,
              is_crisis := llmCrisis.risk_level ∈ (["high", "critical"] : List String) },
            ?_, rfl, rfl, rfl, rfl, rfl, rfl, ?_⟩
    · simp only [fuse_analysis]
      rw [if_neg hm, hc]
    · simp

/-- **C1 witness**: concrete instance with a critical rule assessment
(transcript `"انتحار"`) and the default LLM assessment. -/
theorem C1_fusion_safety_first_witness :
    (rule_based_analysis "انتحار").crisis_assessment.risk_level = "critical" ∧
    ∃ f, fuse_analysis (rule_based_analysis "انتحار") llm_default_assessment = some f ∧
      f.source = llm_default_assessment.source ∧
      f.emotional_state = llm_default_assessment.emotional_state ∧
      f.intent = llm_default_assessment.intent ∧
      f.recommended_technique = llm_default_assessment.recommended_technique ∧
      f.confidence = llm_default_assessment.confidence ∧
      f.crisis_assessment = some (rule_based_analysis "انتحار").crisis_assessment ∧
      f.is_crisis = true :=
  ⟨rfl, (C1_fusion_safety_first (rule_based_analysis "انتحار") llm_default_assessment).1
    (Or.inr rfl)⟩

/-- **C2** (confirmed).  If any suicide-ideation or self-harm pattern
matches (case-insensitively), the rule-based analysis returns
`risk_level = "critical"` and `escalation_required = true` (the analysis is
a function of the transcript alone, independent of any LLM output); and the
risk level follows the strict priority order critical / high / medium /
low over the configured categories. -/
theorem C2_rule_priority (text : String) :
    ((categoryHit "suicide_ideation" text || categoryHit "self_harm" text) = true →
      (rule_based_analysis text).crisis_assessment.risk_level = "critical" ∧
      (rule_based_analysis text).crisis_assessment.escalation_required = true) ∧
    (rule_based_analysis text).crisis_assessment.risk_level =
      (if (categoryHit "suicide_ideation" text || categoryHit "self_harm" text) = true then
        "critical"
      else if categoryHit "hopelessness" text = true then "high"
      else if anyCategoryHit text = true then "medium"
      else "low") := by
  have e1 : ("suicide_ideation" ∈ risk_indicators_of text ∨
      "self_harm" ∈ risk_indicators_of text) ↔
      (categoryHit "suicide_ideation" text || categoryHit "self_harm" text) = true := by
    rw [Bool.or_eq_true, mem_risk_indicators_iff, mem_risk_indicators_iff]
  have e2 : ("hopelessness" ∈ risk_indicators_of text) ↔
      categoryHit "hopelessness" text = true := mem_risk_indicators_iff text "hopelessness"
  have e3 : (risk_indicators_of text ≠ []) ↔ anyCategoryHit text = true :=
    risk_indicators_ne_nil_iff text
  have hchain : (rule_based_analysis text).crisis_assessment.risk_level =
      (if (categoryHit "suicide_ideation" text || categoryHit "self_harm" text) = true then
        "critical"
      else if categoryHit "hopelessness" text = true then "high"
      else if anyCategoryHit text = true then "medium"
      else "low") := by
    rw [rule_risk_level_eq]
    simp only [e1, e2, e3]
  refine ⟨fun h => ?_, hchain⟩
  have hc : (rule_based_analysis text).crisis_assessment.risk_level = "critical" := by
    rw [hchain, if_pos h]
  refine ⟨hc, ?_⟩
  rw [rule_escalation_eq, hc]
  simp

/-- **C2 witness**: the transcript `"قتل نفسي"` matches a suicide-ideation
pattern and is classified critical with escalation required. -/
theorem C2_rule_priority_witness :
    (categoryHit "suicide_ideation" "قتل نفسي" || categoryHit "self_harm" "قتل نفسي") = true ∧
    (rule_based_analysis "قتل نفسي").crisis_assessment.risk_level = "critical" ∧
    (rule_based_analysis "قتل نفسي").crisis_assessment.escalation_required = true :=
  ⟨rfl, (C2_rule_priority "قتل نفسي").1 rfl⟩

/-- **C7** (confirmed).  If no pattern of any category matches, the
rule-based analysis returns `risk_level = "low"` and `confidence = 0.3`;
with at least one indicator present, `confidence = 0.6`. -/
theorem C7_confidence_constants (text : String) :
    (anyCategoryHit text = false →
      (rule_based_analysis text).crisis_assessment.risk_level = "low" ∧
      (rule_based_analysis text).confidence = 0.3) ∧
    (anyCategoryHit text = true → (rule_based_analysis text).confidence = 0.6) := by
  constructor
  · intro h
    have hnil : risk_indicators_of text = [] := (risk_indicators_nil_iff text).mpr h
    constructor
    · rw [rule_risk_level_eq]
      simp [hnil]
    · rw [rule_confidence_eq]
      simp [hnil]
  · intro h
    have hne : risk_indicators_of text ≠ [] := (risk_indicators_ne_nil_iff text).mpr h
    rw [rule_confidence_eq, if_pos hne]

/-- **C7 witness**: `"hello"` matches nothing (low, 0.3); `"انتحار"`
matches a pattern (0.6). -/
theorem C7_confidence_constants_witness :
    (anyCategoryHit "hello" = false ∧
      (rule_based_analysis "hello").crisis_assessment.risk_level = "low" ∧
      (rule_based_analysis "hello").confidence = 0.3) ∧
    (anyCategoryHit "انتحار" = true ∧ (rule_based_analysis "انتحار").confidence = 0.6) :=
  ⟨⟨rfl, (C7_confidence_constants "hello").1 rfl⟩,
   ⟨rfl, (C7_confidence_constants "انتحار").2 rfl⟩⟩

/-- **C9 counterexample**: the claim says each category appears at most
once in `indicators` even when several of its patterns match; but the
transcript `"انتحار قتل نفسي"` matches two suicide-ideation patterns and
the category is listed twice. -/
theorem C9_indicators_counterexample :
    ((rule_based_analysis "انتحار قتل نفسي").crisis_assessment.indicators).count
      "suicide_ideation" = 2 := by decide

/-- **C9** (corrected).  `indicators` is a list, not a set: it contains one
entry of the category name per matching `(category, pattern)` pair, so a
category appears as many times as its patterns match.  (The risk derivation
only tests membership, so it is unaffected.) -/
theorem C9_indicators_multiset_amended (text cat : String) :
    ((rule_based_analysis text).crisis_assessment.indicators).count cat =
      ((crisis_patterns.map (fun cp =>
        if cp.1 = cat then (cp.2.filter (fun p => patternMatch p text)).length
        else 0)).sum) := by
  rw [rule_indicators_eq, risk_indicators_of, List.count_flatten, List.map_map]
  refine congrArg List.sum (List.map_congr_left ?_)
  intro cp _
  exact count_filterMap_ite cp.1 cat text cp.2

/-! ## Claims about the LLM analyzer -/

/-- **C3 counterexample**: the claim says missing keys in the model's JSON
output also yield the fixed default; but a successfully parsed empty JSON
object (every key missing) is spliced through unvalidated: the result has
`confidence = 0.8`, not the default's `0.0`. -/
theorem C3_missing_keys_counterexample :
    llm_based_analysis (Except.ok {}) ≠ llm_default_assessment ∧
    (llm_based_analysis (Except.ok {})).confidence = 0.8 ∧
    llm_default_assessment.confidence = 0 := by
  refine ⟨fun h => ?_, rfl, rfl⟩
  have hconf : (llm_based_analysis (Except.ok {})).confidence =
      llm_default_assessment.confidence := by rw [h]
  norm_num [llm_based_analysis, llm_default_assessment] at hconf

/-- **C3** (corrected).  The analyzer is total: any exception of the
external call or of parsing (network error, timeout, malformed / non-JSON /
non-object output) is caught and yields the fixed default
`{emotional_state="neutral", intent="general_conversation",
risk_level="low", requires_intervention=false, escalation_required=false,
confidence=0.0}`; a successfully parsed JSON object, however, is spliced
through without key validation, and on that path `confidence` is fixed at
`0.8` regardless of any `confidence` value in the model's output. -/
theorem C3_llm_total_amended (raw : LLMRaw) :
    llm_based_analysis (Except.error ()) = llm_default_assessment ∧
    (llm_based_analysis (Except.ok raw)).confidence = 0.8 :=
  ⟨rfl, rfl⟩

/-! ## Claims about response generation -/

/-- **C4 counterexample**: the claim says a non-approving raw reviewer
output becomes the final text verbatim; but the code strips it first:
raw output `"rewrite "` (trailing blank) yields final text `"rewrite"`. -/
theorem C4_review_counterexample :
    pyStartsWith (pyUpper "rewrite ") "APPROVED" = false ∧
    review_final_text "primary" (some "rewrite ") = "rewrite" ∧
    ("rewrite" : String) ≠ "rewrite " := by
  refine ⟨rfl, rfl, ?_⟩
  decide

/-- **C4** (corrected).  Reviewer parsing, stated on the stripped raw
output: if the raw reviewer output, after stripping surrounding whitespace,
begins case-insensitively with `"APPROVED"`, the final text is the primary
text unchanged; otherwise the **stripped** raw output becomes the final
text.  There is no third, partial-edit outcome. -/
theorem C4_review_parsing_amended (primary raw : String) :
    (pyStartsWith (pyUpper (pyStrip raw)) "APPROVED" = true →
      review_final_text primary (some raw) = primary) ∧
    (pyStartsWith (pyUpper (pyStrip raw)) "APPROVED" = false →
      review_final_text primary (some raw) = pyStrip raw) ∧
    (review_final_text primary (some raw) = primary ∨
      review_final_text primary (some raw) = pyStrip raw) := by
  simp only [review_final_text]
  by_cases h : pyStartsWith (pyUpper (pyStrip raw)) "APPROVED" = true
  · rw [if_pos h]
    exact ⟨fun _ => rfl, fun hf => absurd h (by simp [hf]), Or.inl rfl⟩
  · rw [if_neg h]
    exact ⟨fun ht => absurd ht h, fun _ => rfl, Or.inr rfl⟩

/-- **C4 witness**: `"approved."` approves (primary kept); the amended
replacement branch at `"rewrite "`. -/
theorem C4_review_parsing_witness :
    (pyStartsWith (pyUpper (pyStrip "approved.")) "APPROVED" = true ∧
      review_final_text "keep" (some "approved.") = "keep") ∧
    (pyStartsWith (pyUpper (pyStrip "rewrite ")) "APPROVED" = false ∧
      review_final_text "keep" (some "rewrite ") = pyStrip "rewrite ") :=
  ⟨⟨rfl, (C4_review_parsing_amended "keep" "approved.").1 rfl⟩,
   ⟨rfl, (C4_review_parsing_amended "keep" "rewrite ").2.1 rfl⟩⟩

/-- **C5 counterexample**: the claim says empty primary output also diverts
to the fallback; but an empty-string content (after strip) proceeds through
review and is returned as the final text — not the fallback result. -/
theorem C5_empty_output_counterexample :
    (generate_response "gpt-4o-mini" "gemini-2.5-flash-lite" "t" {} "s"
        (Except.ok (some "")) (Except.ok (some "APPROVED"))).text = "" ∧
    (generate_fallback_response "t" {}).text =
      "شكراً لك على مشاركة مشاعرك معي. كيف يمكنني مساعدتك اليوم؟" ∧
    generate_response "gpt-4o-mini" "gemini-2.5-flash-lite" "t" {} "s"
        (Except.ok (some "")) (Except.ok (some "APPROVED")) ≠
      generate_fallback_response "t" {} := by
  refine ⟨rfl, rfl, fun h => ?_⟩
  exact absurd (congrArg GeneratedResponse.text h) (by decide)

/-- **C5** (corrected).  The fallback is taken exactly when an exception is
raised inside the `try` block: the primary-generation call raising, a
`None` content (whose `.strip()` raises), or the safety-review call
raising, each yield exactly the `FallbackResponder` result, with no retry
and no exception escaping; empty-string outputs are *not* diverted.  The
fallback itself is a pure catalog lookup that never fails. -/
theorem C5_fallback_on_failure_amended (pm dm t s c : String) (a : Analysis)
    (r : Except Unit (Option String)) :
    generate_response pm dm t a s (Except.error ()) r =
      generate_fallback_response t a ∧
    generate_response pm dm t a s (Except.ok none) r =
      generate_fallback_response t a ∧
    generate_response pm dm t a s (Except.ok (some c)) (Except.error ()) =
      generate_fallback_response t a :=
  ⟨rfl, rfl, rfl⟩

/-- **C6** (confirmed).  `FallbackResponder`: the reply text is the
exact-match catalog lookup with the `"general"` entry as default
(`"crisis"` gives the crisis-support string, `"unknown_state"` the general
string), and the record always has `model_used="fallback"`,
`confidence=0.5`, `cultural_adaptations=["emergency_fallback"]`,
`therapeutic_techniques=["active_listening"]` and
`safety_assessment={risk_level:"low", intervention_required:false}`. -/
theorem C6_fallback_responder (transcript es : String) :
    (generate_fallback_response transcript { emotional_state := some es }).text =
      (dictGet fallback_responses es).getD
        "شكراً لك على مشاركة مشاعرك معي. كيف يمكنني مساعدتك اليوم؟" ∧
    (generate_fallback_response transcript { emotional_state := some es }).model_used =
      "fallback" ∧
    (generate_fallback_response transcript { emotional_state := some es }).confidence = 0.5 ∧
    (generate_fallback_response transcript { emotional_state := some es }).cultural_adaptations =
      ["emergency_fallback"] ∧
    (generate_fallback_response transcript { emotional_state := some es }).therapeutic_techniques =
      ["active_listening"] ∧
    (generate_fallback_response transcript { emotional_state := some es }).safety_assessment =
      some { risk_level := "low", intervention_required := false } ∧
    (generate_fallback_response transcript { emotional_state := some "crisis" }).text =
      "أفهم أنك تمر بوقت صعب. هل يمكنك مشاركة المزيد حول ما تشعر به؟ أنا هنا لمساعدتك." ∧
    (generate_fallback_response transcript { emotional_state := some "unknown_state" }).text =
      "شكراً لك على مشاركة مشاعرك معي. كيف يمكنني مساعدتك اليوم؟" :=
  ⟨rfl, rfl, rfl, rfl, rfl, rfl, rfl, rfl⟩


/-- **C8** (confirmed).  The cultural-adaptation tagger is a pure function
of the response text: it never mutates the text, applying it twice yields
the identical record (idempotence), every tag occurs at most once, and each
of the four marker categories contributes exactly one tag precisely when
its vocabulary appears in the text. -/
theorem C8_cultural_tagger (r : ResponseDict) (a a2 : Analysis) :
    (apply_cultural_adaptations r a).text = r.text ∧
    apply_cultural_adaptations (apply_cultural_adaptations r a) a2 =
      apply_cultural_adaptations r a ∧
    (∀ tag, ((apply_cultural_adaptations r a).adaptations.getD []).count tag ≤ 1) ∧
    ((apply_cultural_adaptations r a).adaptations.getD []).count "religious_sensitivity" =
      (if (pyContains r.text "الله" || pyContains r.text "إن شاء الله") = true then 1
       else 0) ∧
    ((apply_cultural_adaptations r a).adaptations.getD []).count "family_context" =
      (if ((["عائلة", "والدين", "إخوان", "أخوات"] : List String).any
          (fun term => pyContains r.text term)) = true then 1 else 0) ∧
    ((apply_cultural_adaptations r a).adaptations.getD []).count "social_norms" =
      (if ((["مجتمع", "عادات", "تقاليد"] : List String).any
          (fun term => pyContains r.text term)) = true then 1 else 0) ∧
    ((apply_cultural_adaptations r a).adaptations.getD []).count "therapeutic_terminology" =
      (if ((["علاج", "نفسي", "استشارة", "دعم"] : List String).any
          (fun term => pyContains r.text term)) = true then 1 else 0) := by
  have hget : (apply_cultural_adaptations r a).adaptations.getD [] = culturalTags r.text := by
    rw [apply_cultural_adaptations_eq]
    rfl
  refine ⟨rfl, rfl, ?_, ?_, ?_, ?_, ?_⟩
  · intro tag
    rw [hget]
    exact List.nodup_iff_count_le_one.mp (culturalTags_nodup r.text) tag
  · rw [hget]
    exact count_culturalTags_religious r.text
  · rw [hget]
    exact count_culturalTags_family r.text
  · rw [hget]
    exact count_culturalTags_social r.text
  · rw [hget]
    exact count_culturalTags_therapeutic r.text

/-- **C10** (confirmed).  Implicit invariant: on every return path of
`generate_response` — success with or without reviewer replacement, and
fallback — the returned `safety_assessment` is exactly
`{risk_level: "low", intervention_required: false}`, independent of the
fused analysis. -/
theorem C10_safety_assessment_fixed (pm dm t s : String) (a : Analysis)
    (g r : Except Unit (Option String)) :
    (generate_response pm dm t a s g r).safety_assessment =
      some { risk_level := "low", intervention_required := false } := by
  cases g with
  | error e => rfl
  | ok oc =>
    cases oc with
    | none => rfl
    | some c =>
      cases r with
      | error e => rfl
      | ok review => rfl

end OmaniTherapist
